import Mathlib

/-!
Shallow embedding of the Atlas query-fulfillment engine (TCP-Lab/Atlas).

The repository ships two engine generations side by side:
  * `src/atlas/core.py` — older engine; its reconciler detects duplicate
    columns, selects a pivot column, and folds the tables with
    `pd.merge(on=pivot, how="outer")`;
  * `src/cma_atlas/core.py` — newer engine; its reconciler folds the tables
    with `merge_or_concat` (validated one-to-one outer merge, falling back to
    `pd.concat` when the merge raises `ValueError`).

Both engines share the same validation (`Atlas.test_query`) and interface
resolution logic.  Tables model `pandas.DataFrame`: an ordered list of named
columns and an ordered list of rows; cells are `Option Int` (`none` plays the
role of NaN / a missing cell).
-/

namespace Atlas

/-- Exceptions travelling as values (the repository returns the caught
exception object itself from a worker; we keep its message). -/
abbrev Exc := String

/-- Raw downloaded data handed from a downloader to a processor. -/
abbrev Raw := Int

/-- Decidable equality for `Except` outcomes, so that concrete runs of the
embedded engine can be checked by `decide`. -/
instance exceptDecEq {ε α : Type} [DecidableEq ε] [DecidableEq α] :
    DecidableEq (Except ε α) := fun a b =>
  match a, b with
  | .ok x, .ok y =>
    if h : x = y then isTrue (by rw [h]) else isFalse fun hh => h (Except.ok.inj hh)
  | .error x, .error y =>
    if h : x = y then isTrue (by rw [h]) else isFalse fun hh => h (Except.error.inj hh)
  | .ok _, .error _ => isFalse fun h => Except.noConfusion h
  | .error _, .ok _ => isFalse fun h => Except.noConfusion h

/-- A pandas DataFrame: named columns in order, rows in order; a cell is
`Option Int`, with `none` standing for NaN / a missing value. -/
structure Table where
  cols : List String
  rows : List (List (Option Int))
deriving DecidableEq, Repr

/-- Value of column `c` in a row, by walking the column list and the row's
cells in lockstep.  Returns `none` both for an absent column and for a NaN
cell, matching how pandas fills missing data. -/
def lookupCell : List String → List (Option Int) → String → Option Int
  | [], _, _ => none
  | _ :: _, [], _ => none
  | c :: cs, v :: vs, target => if c = target then v else lookupCell cs vs target

/-- A worker's delivered result: `AtlasInterface.run` returns either the
processed DataFrame or the caught exception object (`return e`). -/
inductive RunResult
  | table : Table → RunResult
  | exc : Exc → RunResult
deriving DecidableEq, Repr

/-- An `AtlasInterface` from `cma_atlas/abcs.py`: a `type`, a `name`, a
downloader, a processor and the promised columns.  The downloader and the
processor are modelled by their behaviour for this interface's fixed `name`:
an `Except` value — `.error e` is the behaviour "raises exception `e`". -/
structure AtlasInterface where
  type : String
  name : String
  downloader : Except Exc Raw
  processor : Raw → Except Exc Table
  provided_cols : Option (List String)

/-- The body of `AtlasInterface.run` (`cma_atlas/abcs.py`):
`try: raw = downloader.retrieve(...); processed = processor(...); return
processed; except Exception as e: return e`.  The `provided_cols`
`contains_all` comparison inside the `try` only emits a `log.warn` and never
changes the returned value, so it does not appear in the result. -/
def AtlasInterface.run (i : AtlasInterface) : RunResult :=
  match i.downloader with
  | .error e => .exc e
  | .ok raw =>
    match i.processor raw with
    | .error e => .exc e
    | .ok t => .table t

/-- Reflect an `Except`-style pipeline outcome into the worker-boundary value
delivered by `run`. -/
def toRunResult : Except Exc Table → RunResult
  | .ok t => .table t
  | .error e => .exc e

/-- An `AtlasQuery` (`cma_atlas/abcs.py`): the requested `type`, the ordered
list of interface names, and the version string the query was produced by. -/
structure AtlasQuery where
  type : String
  interfaces : List String
  version : String
deriving DecidableEq, Repr

/-- The reason logged when `test_query` raises `InvalidQuery` (the code raises
the same exception class from two distinct sites with distinct log
messages). -/
inductive InvalidQueryReason
  | unsupportedType
  | unsupportedInterface
deriving DecidableEq, Repr

/-- Non-fatal conditions that only produce a log warning in `test_query`. -/
inductive Warning
  | typeMismatch
  | versionMismatch
deriving DecidableEq, Repr

/-- The list comprehension `[x for x in self.interfaces if x.name in
query.interfaces]`, used both in `test_query` (for the type-mismatch warning)
and in `fulfill_query` (to build `query_interfaces`). -/
def resolveInterfaces (reg : List AtlasInterface) (q : AtlasQuery) : List AtlasInterface :=
  reg.filter fun x => decide (x.name ∈ q.interfaces)

/-- `Atlas.test_query` (`cma_atlas/core.py`): raises `InvalidQuery` when the
query's type is not among the registered interface types, or when some
requested interface name is not registered; otherwise it only logs warnings
(returned here as a list) and succeeds. -/
def test_query (reg : List AtlasInterface) (ver : String) (q : AtlasQuery) :
    Except InvalidQueryReason (List Warning) :=
  if q.type ∉ reg.map (·.type) then
    .error .unsupportedType
  else if ¬ (∀ n ∈ q.interfaces, n ∈ reg.map (·.name)) then
    .error .unsupportedInterface
  else
    let query_interfaces := resolveInterfaces reg q
    let w1 : List Warning :=
      if ¬ (∀ x ∈ query_interfaces, x.type = q.type) then [.typeMismatch] else []
    let w2 : List Warning :=
      if q.version ≠ ver then [.versionMismatch] else []
    .ok (w1 ++ w2)

/-- Worker-count computation in `cma_atlas/core.py` `fulfill_query`:
`cpu_count()` when `max_cores is None`, else `max(1, min(max_cores,
cpu_count()))`. -/
def n_processes (max_cores : Option Int) (cpu : Int) : Int :=
  match max_cores with
  | none => cpu
  | some m => max 1 (min m cpu)

/-- Pandas errors that `merge`/`concat` can raise (all are `ValueError`s:
`MergeError` subclasses `ValueError`, and `concat`'s `verify_integrity` raises
a `ValueError` about overlapping index values). -/
inductive PdError
  | mergeError
  | keyError
  | concatOverlap
deriving DecidableEq, Repr

/-- Merge keys used by `pd.merge` when `on` is not given: the columns common
to both frames, in the left frame's column order. -/
def commonCols (x y : Table) : List String :=
  x.cols.filter fun c => decide (c ∈ y.cols)

/-- The tuple of a row's values at the key columns `ks`. -/
def keyTuple (cols : List String) (ks : List String) (row : List (Option Int)) :
    List (Option Int) :=
  ks.map (lookupCell cols row)

/-- All key tuples of a table, one per row. -/
def keyTuples (t : Table) (ks : List String) : List (List (Option Int)) :=
  t.rows.map (keyTuple t.cols ks)

/-- The `validate="one_to_one"` precondition of `pd.merge(x, y, how="outer")`
with no `on`: there must be common columns at all (else pandas raises
`MergeError: No common columns to perform merge on`), and the key tuples must
be unique within the left and within the right frame (else pandas raises
`MergeError: Merge keys are not unique ...; not a one-to-one merge`). -/
def oneToOneValid (x y : Table) : Bool :=
  let ks := commonCols x y
  !ks.isEmpty && decide (keyTuples x ks).Nodup && decide (keyTuples y ks).Nodup

/-- Outer join of two frames on key columns `ks` (name-based pairing, as in
`pd.merge` with `on=None`, where `ks` is exactly the set of common columns and
the remaining columns of the two frames are disjoint).  Each left row is
paired with every right row carrying an equal key tuple (kept alone with NaN
fill when there is none), then the unmatched right rows follow with NaN fill
for the left-only columns. -/
def joinOuterCommon (ks : List String) (x y : Table) : Table :=
  let rc := x.cols ++ y.cols.filter fun c => decide (c ∉ x.cols)
  let leftRows := x.rows.flatMap fun xr =>
    let ms := y.rows.filter fun yr => keyTuple y.cols ks yr == keyTuple x.cols ks xr
    if ms.isEmpty then
      [rc.map fun c => lookupCell x.cols xr c]
    else
      ms.map fun yr =>
        rc.map fun c =>
          if c ∈ x.cols then lookupCell x.cols xr c else lookupCell y.cols yr c
  let rightRows :=
    (y.rows.filter fun yr =>
        !(x.rows.any fun xr => keyTuple x.cols ks xr == keyTuple y.cols ks yr)).map
      fun yr => rc.map fun c => lookupCell y.cols yr c
  ⟨rc, leftRows ++ rightRows⟩

/-- Row stacking of `pd.concat([x, y], ignore_index=True)`: columns are
unioned (first frame's columns first, then the unseen ones of the second),
each row is reindexed to the union with NaN for its missing columns. -/
def concatTable (x y : Table) : Table :=
  let rc := x.cols ++ y.cols.filter fun c => decide (c ∉ x.cols)
  let xrows := x.rows.map fun r => rc.map fun c => lookupCell x.cols r c
  let yrows := y.rows.map fun r => rc.map fun c => lookupCell y.cols r c
  ⟨rc, xrows ++ yrows⟩

/-- Full behaviour of `pd.concat([x, y], ignore_index=True,
verify_integrity=True)`: `verify_integrity` checks that the NEW concatenated
axis has no duplicates, and with `ignore_index=True` that axis is the freshly
generated RangeIndex `0 .. n-1` (pandas `_get_concat_axis` builds
`default_index(n)` and `_maybe_check_integrity` checks it for uniqueness). -/
def concatVerify (x y : Table) : Except PdError Table :=
  let newIndex := List.range (x.rows.length + y.rows.length)
  if ¬ newIndex.Nodup then .error .concatOverlap else .ok (concatTable x y)

/-- The `merge_or_concat` closure inside `cma_atlas/core.py` `fulfill_query`:
`try: pd.merge(x, y, how="outer", validate="one_to_one") except ValueError:
pd.concat([x, y], ignore_index=True, verify_integrity=True)`.  The merge
raises `ValueError` exactly when `oneToOneValid` fails (no common columns, or
duplicate merge keys on either side), which the `except` turns into the
concat fallback. -/
def merge_or_concat (x y : Table) : Except PdError Table :=
  if oneToOneValid x y then .ok (joinOuterCommon (commonCols x y) x y)
  else concatVerify x y

/-- Terminal outcomes of `cma_atlas/core.py` `fulfill_query`: `Abort` on an
invalid query, the first child-process exception re-raised, a pandas error
escaping the merge fold, or `reduce` over an empty list (`TypeError`). -/
inductive FulfillError
  | abort
  | unitFailure (e : Exc)
  | pdError (e : PdError)
  | typeError
deriving DecidableEq, Repr

/-- The post-pool error scan of `fulfill_query` (`for i, item in
enumerate(data): if isinstance(item, Exception): raise item`) combined with
the table extraction: it delivers the error of the first `Exception` in the
collected results, and when there is none, the list of tables in collection
order. -/
def resultsToTables : List RunResult → Except Exc (List Table)
  | [] => .ok []
  | .exc e :: _ => .error e
  | .table t :: rest => (resultsToTables rest).map (t :: ·)

/-- The first exception value in a collected result list, if any. -/
def firstExc (l : List RunResult) : Option Exc :=
  (l.filterMap fun r => match r with | .exc e => some e | .table _ => none).head?

/-- `Atlas.fulfill_query` (`cma_atlas/core.py`).  `ver` is the engine's own
`__version__`; `cpu` is `cpu_count()`.  The `ProcessPoolExecutor` is invisible
to the delivered values: `pool.map(run, query_interfaces)` returns results in
the input order whatever the completion order, which the embedding renders as
`query_interfaces.map AtlasInterface.run`; the pool size only tunes
concurrency. -/
def fulfill_query (reg : List AtlasInterface) (ver : String) (q : AtlasQuery)
    (max_cores : Option Int) (cpu : Int) : Except FulfillError Table :=
  match test_query reg ver q with
  | .error _ => .error .abort
  | .ok _ =>
    let query_interfaces := resolveInterfaces reg q
    let _pool_size := n_processes max_cores cpu
    let data := query_interfaces.map AtlasInterface.run
    match resultsToTables data with
    | .error e => .error (.unitFailure e)
    | .ok tables =>
      match tables with
      | [t] => .ok t
      | [] => .error .typeError
      | t :: rest => (rest.foldlM merge_or_concat t).mapError .pdError

/-- Terminal outcomes of the reconciliation half of `atlas/core.py`
`fulfill_query`.  The code raises `typer.Abort()` both when no duplicated
column exists and when two pivot columns are found; the two sites are kept
apart here, as their distinct `log.error` messages keep them apart for the
user (`NoPivotColumn` versus `AmbiguousPivotColumn` in the design's error
taxonomy). -/
inductive AtlasError
  | noPivotColumn
  | ambiguousPivotColumn
  | mergeError
  | typeError
deriving DecidableEq, Repr

/-- One step of the duplicated-column detection loop in `atlas/core.py`:
`if col in all_cols and col not in duplicate_cols: duplicate_cols.append(col)
else: all_cols.append(col)`.  The accumulator is `(all_cols,
duplicate_cols)`. -/
def detectStep (acc : List String × List String) (col : String) :
    List String × List String :=
  if col ∈ acc.1 ∧ col ∉ acc.2 then (acc.1, acc.2 ++ [col])
  else (acc.1 ++ [col], acc.2)

/-- The full "Detecting duplicated columns..." double loop of
`atlas/core.py`: every column of every table, in table order then column
order, is fed through `detectStep` starting from two empty lists. -/
def detectDuplicates (data : List Table) : List String × List String :=
  data.foldl (fun acc t => t.cols.foldl detectStep acc) ([], [])

/-- `all([duplicate_col in x.columns for x in data])`: the candidate is
present in every table. -/
def allHave (data : List Table) (c : String) : Bool :=
  data.all fun t => decide (c ∈ t.cols)

/-- The "Finding pivot column..." loop of `atlas/core.py`, with `acc`
mirroring the `pivot_col` variable (initially `None`): a candidate not shared
by all frames is logged and skipped; a shared candidate is accepted when no
pivot is held yet, and aborts the reconciliation when one already is. -/
def selectPivotAux (data : List Table) :
    List String → Option String → Except AtlasError (Option String)
  | [], acc => .ok acc
  | c :: rest, acc =>
    if !(allHave data c) then selectPivotAux data rest acc
    else
      match acc with
      | none => selectPivotAux data rest (some c)
      | some _ => .error .ambiguousPivotColumn

/-- Pivot selection over the discovered duplicate columns, starting from
`pivot_col = None`. -/
def selectPivot (data : List Table) (dups : List String) :
    Except AtlasError (Option String) :=
  selectPivotAux data dups none

/-- Outer join `pd.merge(x, y, on=p, how="outer")` on a single named key
column `p` present in both frames.  Non-key columns appearing on both sides
are disambiguated with the pandas default suffixes; pairing is many-to-many
(no `validate`): each left row is kept once per matching right row (once
alone, NaN-filled, if none matches), then the unmatched right rows follow
with NaN everywhere on the left side except the key. -/
def joinOuterOn (p : String) (x y : Table) : Table :=
  let xcols := x.cols.map fun c => if c ≠ p ∧ c ∈ y.cols then c ++ "_x" else c
  let ycolsKept := y.cols.filter fun c => decide (c ≠ p)
  let ycols := ycolsKept.map fun c => if c ∈ x.cols then c ++ "_y" else c
  let ypart := fun yr => ycolsKept.map fun c => lookupCell y.cols yr c
  let leftRows := x.rows.flatMap fun xr =>
    let ms := y.rows.filter fun yr => lookupCell y.cols yr p == lookupCell x.cols xr p
    if ms.isEmpty then [xr ++ ycolsKept.map fun _ => (none : Option Int)]
    else ms.map fun yr => xr ++ ypart yr
  let rightRows :=
    (y.rows.filter fun yr =>
        !(x.rows.any fun xr => lookupCell x.cols xr p == lookupCell y.cols yr p)).map
      fun yr =>
        (x.cols.map fun c => if c = p then lookupCell y.cols yr p else none) ++ ypart yr
  ⟨xcols ++ ycols, leftRows ++ rightRows⟩

/-- The merge-fold step `pd.merge(left, right, on=pivot_col, how="outer")` of
`atlas/core.py`, where `pivot_col` may still be `None` (no candidate was
shared by all frames): `on=None` makes pandas join on the common columns,
raising `MergeError` when there are none; `on=p` requires `p` in both frames
(`KeyError` otherwise, folded into `.mergeError` here). -/
def pdMergeOuter (on? : Option String) (x y : Table) : Except AtlasError Table :=
  match on? with
  | some p =>
    if p ∈ x.cols ∧ p ∈ y.cols then .ok (joinOuterOn p x y) else .error .mergeError
  | none =>
    let ks := commonCols x y
    if ks.isEmpty then .error .mergeError else .ok (joinOuterCommon ks x y)

/-- The reconciliation tail of `atlas/core.py` `fulfill_query`, from
"Detecting duplicated columns..." to the final `reduce` merge: duplicate
detection, `Abort` when no duplicated column exists, pivot selection, and the
left fold of outer merges on the pivot (`reduce` over `data`, so the first
table is the fold's start; `reduce` over an empty list is a `TypeError`). -/
def atlasCollapse (data : List Table) : Except AtlasError Table :=
  let dup := (detectDuplicates data).2
  if dup.isEmpty then .error .noPivotColumn
  else
    match selectPivot data dup with
    | .error e => .error e
    | .ok pivot? =>
      match data with
      | [] => .error .typeError
      | t :: rest => rest.foldlM (pdMergeOuter pivot?) t

/-! Helper lemmas. -/

lemma selectPivotAux_some (data : List Table) (p : String) (dups : List String) :
    selectPivotAux data dups (some p) =
      if dups.filter (allHave data) = [] then .ok (some p)
      else .error .ambiguousPivotColumn := by
  induction dups with
  | nil => simp [selectPivotAux]
  | cons c rest ih =>
    cases h : allHave data c with
    | false => simpa [selectPivotAux, h, List.filter_cons] using ih
    | true => simp [selectPivotAux, h, List.filter_cons]

lemma resultsToTables_firstExc : ∀ (l : List RunResult) (e : Exc),
    firstExc l = some e → resultsToTables l = .error e
  | [], e => by simp [firstExc]
  | .exc e' :: rest, e => by
    intro h
    have he : e' = e := by simpa [firstExc] using h
    simp [resultsToTables, he]
  | .table t :: rest, e => by
    intro h
    have h' : firstExc rest = some e := by simpa [firstExc, List.filterMap_cons] using h
    simp [resultsToTables, resultsToTables_firstExc rest e h', Except.map]

lemma resolve_append_self (reg : List AtlasInterface) (t : String) (names : List String)
    (v : String) :
    resolveInterfaces reg ⟨t, names ++ names, v⟩ = resolveInterfaces reg ⟨t, names, v⟩ :=
  List.filter_congr fun x _ => decide_eq_decide.mpr (by simp [List.mem_append])

lemma test_query_append (reg : List AtlasInterface) (ver t : String)
    (names : List String) (v : String) :
    test_query reg ver ⟨t, names ++ names, v⟩ = test_query reg ver ⟨t, names, v⟩ := by
  simp only [test_query, resolve_append_self, List.mem_append, or_self]

/-! Claim theorems. -/

/-- Claim C4: during pivot-column selection over the discovered duplicate
columns, candidates not present in every table are skipped without failing,
a second all-present candidate after an accepted one aborts with the
ambiguous-pivot error, and a successful selection holds at most one pivot:
the chosen pivot is exactly the head of the all-present candidates, and the
selection fails precisely when there are two or more of them. -/
theorem pivot_candidate_selection (data : List Table) (dups : List String) :
    selectPivot data dups =
      if 2 ≤ (dups.filter (allHave data)).length then .error .ambiguousPivotColumn
      else .ok (dups.filter (allHave data)).head? := by
  induction dups with
  | nil => simp [selectPivot, selectPivotAux]
  | cons c rest ih =>
    cases h : allHave data c with
    | false =>
      simpa [selectPivot, selectPivotAux, h, List.filter_cons] using ih
    | true =>
      simp only [selectPivot, selectPivotAux, h, Bool.not_true, Bool.false_eq_true,
        if_false, List.filter_cons, if_true]
      rw [selectPivotAux_some]
      cases hr : rest.filter (allHave data) with
      | nil => simp [hr]
      | cons d ds => simp [hr, Nat.succ_le_succ, List.length_cons]

/-- Claim C9: the effective worker count is `cpu_count()` when `max_cores` is
absent, equals `clamp(max_cores, 1, cpu_count())` when present, and always
lies between 1 and `cpu_count()`. -/
theorem n_processes_clamp (mc : Option Int) (cpu : Int) (h : 1 ≤ cpu) :
    n_processes mc cpu = max 1 (min (mc.getD cpu) cpu) ∧
    (mc = none → n_processes mc cpu = cpu) ∧
    1 ≤ n_processes mc cpu ∧ n_processes mc cpu ≤ cpu := by
  cases mc with
  | none =>
    refine ⟨?_, fun _ => rfl, ?_, ?_⟩ <;> simp [n_processes] <;> omega
  | some m =>
    refine ⟨rfl, fun hc => Option.noConfusion hc, ?_, ?_⟩ <;>
      simp only [n_processes] <;> omega

theorem n_processes_clamp_witness :
    (1 : Int) ≤ 4 ∧
    (n_processes (some 9) 4 = max 1 (min ((some (9 : Int)).getD 4) 4) ∧
     (some (9 : Int) = none → n_processes (some 9) 4 = 4) ∧
     1 ≤ n_processes (some 9) 4 ∧ n_processes (some 9) 4 ≤ 4) :=
  ⟨by decide, n_processes_clamp (some 9) 4 (by decide)⟩

/-- Claim C8: `AtlasInterface.run` never lets an exception escape — for every
downloader/processor behaviour its value is exactly the reflected outcome of
the download/process pipeline, hence always a table or a captured exception
value. -/
theorem run_captures_exceptions (i : AtlasInterface) :
    i.run = toRunResult (i.downloader.bind i.processor) ∧
    ((∃ t, i.run = .table t) ∨ (∃ e, i.run = .exc e)) := by
  constructor
  · cases hd : i.downloader with
    | error e => simp [AtlasInterface.run, hd, Except.bind, toRunResult]
    | ok raw =>
      cases hp : i.processor raw <;>
        simp [AtlasInterface.run, hd, hp, Except.bind, toRunResult]
  · cases h : i.run with
    | table t => exact Or.inl ⟨t, rfl⟩
    | exc e => exact Or.inr ⟨e, rfl⟩

/-- Claim C1 (counterexample): with registry order `[A, B]` and query order
`["B", "A"]`, the resolved units — and therefore the result list scanned for
failures — follow the registry order `["A", "B"]`, not the query order: with
both units failing, fulfillment raises unit A's error, where a query-ordered
scan would have raised unit B's. -/
theorem resolution_ignores_query_order :
    (resolveInterfaces
        [⟨"T", "A", .error "errA", fun _ => .error "errA", none⟩,
         ⟨"T", "B", .error "errB", fun _ => .error "errB", none⟩]
        ⟨"T", ["B", "A"], "0"⟩).map (·.name) = ["A", "B"] ∧
    (⟨"T", ["B", "A"], "0"⟩ : AtlasQuery).interfaces = ["B", "A"] ∧
    fulfill_query
        [⟨"T", "A", .error "errA", fun _ => .error "errA", none⟩,
         ⟨"T", "B", .error "errB", fun _ => .error "errB", none⟩]
        "0" ⟨"T", ["B", "A"], "0"⟩ none 4 = .error (.unitFailure "errA") :=
  ⟨by decide, by decide, by decide⟩

/-- Claim C1 (amended): resolution filters the registry by membership of each
registered interface's name in `query.interfaces`, so the resolved list — the
order in which results are scanned and handed to reconciliation — is a
sublist of the registry (registry order), containing exactly the registered
interfaces whose names the query mentions. -/
theorem resolution_registry_order (reg : List AtlasInterface) (q : AtlasQuery) :
    List.Sublist (resolveInterfaces reg q) reg ∧
    ∀ x, x ∈ resolveInterfaces reg q ↔ x ∈ reg ∧ x.name ∈ q.interfaces := by
  refine ⟨List.filter_sublist reg, fun x => ?_⟩
  simp [resolveInterfaces, List.mem_filter]

/-- Claim C2: when the collected results of the resolved units contain a
failure, fulfillment of a valid query raises the error of the first failure
in the collected order and returns no table — in particular no result list
containing a failure ever reaches the merge step. -/
theorem fulfill_first_failure (reg : List AtlasInterface) (ver : String)
    (q : AtlasQuery) (mc : Option Int) (cpu : Int) (w : List Warning) (e : Exc)
    (h1 : test_query reg ver q = .ok w)
    (h2 : firstExc ((resolveInterfaces reg q).map AtlasInterface.run) = some e) :
    fulfill_query reg ver q mc cpu = .error (.unitFailure e) := by
  simp only [fulfill_query, h1]
  rw [resultsToTables_firstExc _ e h2]

theorem fulfill_first_failure_witness :
    fulfill_query [⟨"T", "Z", .error "boom", fun _ => .error "boom", none⟩] "0"
        ⟨"T", ["Z"], "0"⟩ none 4 = .error (.unitFailure "boom") :=
  fulfill_first_failure _ "0" _ none 4 [] "boom" (by decide) (by decide)

/-- Claim C7: a valid query resolving to exactly one unit which succeeds is
fulfilled with that unit's table itself — columns, rows and values untouched,
no merge or concat applied. -/
theorem fulfill_singleton (reg : List AtlasInterface) (ver : String)
    (q : AtlasQuery) (mc : Option Int) (cpu : Int) (w : List Warning)
    (i : AtlasInterface) (t : Table)
    (h1 : test_query reg ver q = .ok w)
    (h2 : resolveInterfaces reg q = [i])
    (h3 : i.run = .table t) :
    fulfill_query reg ver q mc cpu = .ok t := by
  simp only [fulfill_query, h1, h2, List.map_cons, List.map_nil, h3,
    resultsToTables, Except.map]

theorem fulfill_singleton_witness :
    fulfill_query [⟨"T", "A", .ok 0, fun _ => .ok ⟨["k"], [[some 1]]⟩, none⟩] "0"
        ⟨"T", ["A"], "0"⟩ none 4 = .ok ⟨["k"], [[some 1]]⟩ :=
  fulfill_singleton _ "0" _ none 4 []
    ⟨"T", "A", .ok 0, fun _ => .ok ⟨["k"], [[some 1]]⟩, none⟩ ⟨["k"], [[some 1]]⟩
    (by decide) rfl rfl

/-- Claim C3 (counterexample): two identical one-column tables with a
duplicated pivot value make the one-to-one join invalid, so the combine step
falls back to appending — but the appended result keeps its duplicated
all-column rows and the step still succeeds: the fallback's uniqueness check
never fails. -/
theorem concat_fallback_no_uniqueness_check :
    oneToOneValid ⟨["id"], [[some 1], [some 1]]⟩ ⟨["id"], [[some 1], [some 1]]⟩ = false ∧
    merge_or_concat ⟨["id"], [[some 1], [some 1]]⟩ ⟨["id"], [[some 1], [some 1]]⟩ =
      .ok ⟨["id"], [[some 1], [some 1], [some 1], [some 1]]⟩ ∧
    ¬ (concatTable ⟨["id"], [[some 1], [some 1]]⟩
        ⟨["id"], [[some 1], [some 1]]⟩).rows.Nodup :=
  ⟨by decide, by decide, by decide⟩

/-- Claim C3 (amended): whenever the validated one-to-one outer join is
invalid, the combine step falls back to appending the two tables' rows, and
this fallback always succeeds — its `verify_integrity` check inspects the
freshly regenerated row index (`ignore_index=True`), which never contains
duplicates, so no uniqueness failure over the rows themselves is possible. -/
theorem concat_fallback_total (x y : Table) (h : oneToOneValid x y = false) :
    merge_or_concat x y = .ok (concatTable x y) := by
  simp [merge_or_concat, h, concatVerify, List.nodup_range]

theorem concat_fallback_total_witness :
    merge_or_concat ⟨["p"], [[some 5], [some 5]]⟩ ⟨["p"], [[some 5]]⟩ =
      .ok (concatTable ⟨["p"], [[some 5], [some 5]]⟩ ⟨["p"], [[some 5]]⟩) :=
  concat_fallback_total _ _ (by decide)

lemma foldl_cols_flatten (L : List Table) (init : List String × List String) :
    L.foldl (fun acc t => t.cols.foldl detectStep acc) init =
      (L.flatMap (·.cols)).foldl detectStep init := by
  induction L generalizing init with
  | nil => rfl
  | cons t rest ih => simp [List.foldl_append, ih]

lemma detect_step_nodup : ∀ (cs : List String) (all : List String),
    cs.Nodup → (∀ c ∈ cs, c ∉ all) →
    cs.foldl detectStep (all, []) = (all ++ cs, [])
  | [], all, _, _ => by simp
  | c :: rest, all, h, hd => by
    have hc : c ∉ all := hd c (by simp)
    have hstep : detectStep (all, []) c = (all ++ [c], []) := by
      simp [detectStep, hc]
    have hrest : ∀ c' ∈ rest, c' ∉ all ++ [c] := by
      intro c' hc'
      simp only [List.mem_append, List.mem_singleton]
      rintro (hin | hin)
      · exact hd c' (by simp [hc']) hin
      · exact (List.nodup_cons.mp h).1 (hin ▸ hc')
    rw [List.foldl_cons, hstep,
      detect_step_nodup rest (all ++ [c]) (List.Nodup.of_cons h) hrest]
    simp

lemma flat_cols_nodup (data : List Table)
    (h1 : ∀ t ∈ data, t.cols.Nodup)
    (h2 : data.Pairwise fun a b => ∀ c, c ∈ a.cols → c ∉ b.cols) :
    (data.flatMap (·.cols)).Nodup := by
  induction data with
  | nil => simp
  | cons t rest ih =>
    rw [List.flatMap_cons]
    refine List.Nodup.append (h1 t (by simp)) (ih ?_ (List.Pairwise.of_cons h2)) ?_
    · intro u hu
      exact h1 u (by simp [hu])
    · intro c hc hmem
      rw [List.mem_flatMap] at hmem
      obtain ⟨u, hu, hcu⟩ := hmem
      exact (List.pairwise_cons.mp h2).1 u hu c hc hcu

/-- Claim C5: tables with pairwise disjoint column-name sets yield no
duplicated column, so the reconciliation of `atlas/core.py` aborts with the
no-pivot-column error and produces no combined table. -/
theorem disjoint_tables_no_pivot (data : List Table)
    (_hlen : 2 ≤ data.length)
    (h1 : ∀ t ∈ data, t.cols.Nodup)
    (h2 : data.Pairwise fun a b => ∀ c, c ∈ a.cols → c ∉ b.cols) :
    atlasCollapse data = .error .noPivotColumn := by
  have hdet : detectDuplicates data = (data.flatMap (·.cols), []) := by
    rw [detectDuplicates, foldl_cols_flatten]
    simpa using detect_step_nodup (data.flatMap (·.cols)) []
      (flat_cols_nodup data h1 h2) (by simp)
  simp [atlasCollapse, hdet]

theorem disjoint_tables_no_pivot_witness :
    atlasCollapse [⟨["A", "B"], [[some 1, some 2]]⟩, ⟨["C", "D"], [[some 3, some 4]]⟩] =
      .error .noPivotColumn :=
  disjoint_tables_no_pivot _ (by decide) (by decide) (by decide)

lemma test_query_err_type (reg : List AtlasInterface) (ver : String) (q : AtlasQuery)
    (hty : q.type ∉ reg.map (·.type)) :
    test_query reg ver q = .error .unsupportedType := by
  simp only [test_query]
  rw [if_pos hty]

lemma test_query_err_name (reg : List AtlasInterface) (ver : String) (q : AtlasQuery)
    (hty : q.type ∈ reg.map (·.type))
    (hnm : ¬ ∀ n ∈ q.interfaces, n ∈ reg.map (·.name)) :
    test_query reg ver q = .error .unsupportedInterface := by
  simp only [test_query]
  rw [if_neg (not_not_intro hty), if_pos hnm]

lemma test_query_ok_eq (reg : List AtlasInterface) (ver : String) (q : AtlasQuery)
    (hty : q.type ∈ reg.map (·.type))
    (hnm : ∀ n ∈ q.interfaces, n ∈ reg.map (·.name)) :
    test_query reg ver q =
      .ok ((if ¬ ∀ x ∈ resolveInterfaces reg q, x.type = q.type
              then [Warning.typeMismatch] else []) ++
           (if q.version ≠ ver then [Warning.versionMismatch] else [])) := by
  simp only [test_query]
  rw [if_neg (not_not_intro hty), if_neg (not_not_intro hnm)]

lemma warn_mem (c1 c2 : Prop) [Decidable c1] [Decidable c2] :
    (Warning.typeMismatch ∈
        ((if c1 then [Warning.typeMismatch] else []) ++
         (if c2 then [Warning.versionMismatch] else [])) ↔ c1) ∧
    (Warning.versionMismatch ∈
        ((if c1 then [Warning.typeMismatch] else []) ++
         (if c2 then [Warning.versionMismatch] else [])) ↔ c2) := by
  by_cases h1 : c1 <;> by_cases h2 : c2 <;> simp [h1, h2]

/-- Claim C6: `test_query` raises `InvalidQuery` exactly when the query's
type is not a registered interface type or some requested name is not a
registered interface name; otherwise it succeeds, with a type mismatch among
the selected interfaces or a version mismatch only recorded as warnings. -/
theorem test_query_invalid_iff (reg : List AtlasInterface) (ver : String)
    (q : AtlasQuery) :
    ((∃ r, test_query reg ver q = .error r) ↔
      q.type ∉ reg.map (·.type) ∨ ∃ n ∈ q.interfaces, n ∉ reg.map (·.name)) ∧
    (∀ ws, test_query reg ver q = .ok ws →
      ((Warning.typeMismatch ∈ ws ↔ ∃ x ∈ resolveInterfaces reg q, x.type ≠ q.type) ∧
       (Warning.versionMismatch ∈ ws ↔ q.version ≠ ver))) := by
  by_cases hty : q.type ∈ reg.map (·.type)
  · by_cases hnm : ∀ n ∈ q.interfaces, n ∈ reg.map (·.name)
    · have hq := test_query_ok_eq reg ver q hty hnm
      constructor
      · rw [hq]
        constructor
        · rintro ⟨r, hr⟩
          exact Except.noConfusion hr
        · rintro (h | ⟨n, hn, hmem⟩)
          · exact absurd hty h
          · exact absurd (hnm n hn) hmem
      · intro ws hws
        rw [hq] at hws
        have hws' : ws = _ := (Except.ok.inj hws).symm
        subst hws'
        refine ⟨Iff.trans (warn_mem _ _).1 ?_, (warn_mem _ _).2⟩
        constructor
        · intro hneg
          push_neg at hneg
          exact hneg
        · rintro ⟨x, hx, hxt⟩ hall
          exact hxt (hall x hx)
    · have hq := test_query_err_name reg ver q hty hnm
      constructor
      · rw [hq]
        push_neg at hnm
        obtain ⟨n, hn, hmem⟩ := hnm
        exact ⟨fun _ => Or.inr ⟨n, hn, hmem⟩, fun _ => ⟨.unsupportedInterface, rfl⟩⟩
      · intro ws hws
        rw [hq] at hws
        exact Except.noConfusion hws
  · have hq := test_query_err_type reg ver q hty
    constructor
    · rw [hq]
      exact ⟨fun _ => Or.inl hty, fun _ => ⟨.unsupportedType, rfl⟩⟩
    · intro ws hws
      rw [hq] at hws
      exact Except.noConfusion hws

/-- Claim C10: duplicating names in the query's interface list changes
neither the resolved unit list nor the fulfillment outcome — resolution picks
each registered interface at most once (the resolved list is a sublist of the
registry), by membership of its name in the query list. -/
theorem fulfill_duplicate_names (reg : List AtlasInterface) (ver t : String)
    (names : List String) (v : String) (mc : Option Int) (cpu : Int) :
    resolveInterfaces reg ⟨t, names ++ names, v⟩ = resolveInterfaces reg ⟨t, names, v⟩ ∧
    List.Sublist (resolveInterfaces reg ⟨t, names ++ names, v⟩) reg ∧
    fulfill_query reg ver ⟨t, names ++ names, v⟩ mc cpu =
      fulfill_query reg ver ⟨t, names, v⟩ mc cpu := by
  refine ⟨resolve_append_self reg t names v, List.filter_sublist reg, ?_⟩
  simp only [fulfill_query, test_query_append, resolve_append_self]

end Atlas
